import Mathlib

/-!
Verification of the proxy-probing subsystem (src/proxy.go) and the frontend
archive extraction path check (src/main.go) of the
update-sub-store-to-subs-check utility.

Modelling choices (shallow embedding):

The network is modelled as a pure oracle NetBehavior: for each proxy address
and target URL, issuing an HTTP GET through the proxy either fails at the
transport layer (none) or yields a response status code (some code).  URL
parsing (Go url.Parse on the proxy address) is modelled by a boolean oracle
parseOk on address strings.

Concurrency is modelled by quantifying over arrival orders:
- In isProxyAvailable, one goroutine per target sends its boolean outcome on
  a buffered channel; wg.Wait precedes close, so the drain loop reads a list
  holding exactly one outcome per target, in an arbitrary arrival order (an
  arbitrary permutation of the per-target outcome list).
- In findAvailableProxy, every candidate goroutine probes concurrently and an
  available candidate tries to send itself on a channel of capacity one with
  a select-default; the caller receives the first value sent, so the result
  is the first available candidate in the order sched in which the goroutines
  reach the channel.  Any interleaving corresponds to some permutation sched
  of the candidate list, so theorems quantify over sched with the hypothesis
  that it is a permutation of the candidates.
-/

/-- Network oracle: parseOk models url.Parse succeeding on a proxy address
string; get models issuing one HTTP GET through that proxy to a target URL,
returning none on a transport error (connection failure, timeout, TLS
failure) and some code on a completed response with status code code. -/
structure NetBehavior where
  parseOk : String → Bool
  get : String → String → Option Nat

/-- The fixed probe-target list of isProxyAvailable (src/proxy.go lines
27 to 33): the Google generate_204 connectivity endpoint expecting
http.StatusNoContent (204) and a raw.githubusercontent.com file expecting
http.StatusOK (200). -/
def testURLs : List (String × Nat) :=
  [("https://www.google.com/generate_204", 204),
   ("https://raw.githubusercontent.com/github/gitignore/main/Go.gitignore", 200)]

/-- Outcome of one probe goroutine (src/proxy.go lines 41 to 50): false when
the request errors at the transport level, otherwise the comparison of the
response status code with the expected code. -/
def probeOutcome (net : NetBehavior) (proxy : String) (t : String × Nat) : Bool :=
  match net.get proxy t.1 with
  | none => false
  | some code => code == t.2

/-- Contents of the results channel of isProxyAvailable after wg.Wait and
close: exactly one boolean outcome per configured target.  The arrival order
is an arbitrary permutation of this list; see prober_waits_for_all. -/
def proberOutcomes (net : NetBehavior) (proxy : String) : List Bool :=
  testURLs.map (probeOutcome net proxy)

/-- isProxyAvailable (src/proxy.go lines 12 to 64): a parse failure of the
proxy address returns false before any probe is launched; otherwise the drain
loop over the closed results channel returns false on the first false outcome
and true when every outcome is true, i.e. the conjunction of all outcomes. -/
def isProxyAvailable (net : NetBehavior) (proxy : String) : Bool :=
  if net.parseOk proxy = false then false
  else (proberOutcomes net proxy).all (fun b => b)

/-- The GET requests issued by one call of isProxyAvailable, as pairs of
proxy address and target URL: none when parsing the address fails (the
function returns before the goroutine loop), otherwise one request per
configured target. -/
def proberRequests (net : NetBehavior) (proxy : String) : List (String × String) :=
  if net.parseOk proxy = false then []
  else testURLs.map (fun t => (proxy, t.1))

/-- findAvailableProxy (src/proxy.go lines 67 to 101).  sched is the order in
which the candidate goroutines reach the buffered result channel; the
receiver obtains the first available candidate in that order (channel
capacity one, select-default discards later senders, the channel is closed
after all goroutines finish so an empty race yields the empty string).  Any
interleaving corresponds to some permutation sched of candidates. -/
def findAvailableProxy (net : NetBehavior) (sched : List String)
    (configProxy : String) (candidates : List String) : String :=
  if configProxy ≠ "" ∧ isProxyAvailable net configProxy = true then configProxy
  else
    match sched.find? (fun p => isProxyAvailable net p) with
    | some p => p
    | none => ""

/-- The proxy addresses on which findAvailableProxy invokes the prober: the
Go conjunction on line 69 short-circuits, so an empty configProxy is never
probed; when step 1 returns, no candidate is probed; otherwise the loop on
line 77 launches one probe per candidate. -/
def selectorProbed (net : NetBehavior) (configProxy : String)
    (candidates : List String) : List String :=
  if configProxy ≠ "" then
    if isProxyAvailable net configProxy = true then [configProxy]
    else configProxy :: candidates
  else candidates

theorem perm_all_eq {l₁ l₂ : List Bool} (h : List.Perm l₁ l₂) (f : Bool → Bool) :
    l₁.all f = l₂.all f := by
  induction h with
  | nil => rfl
  | cons x h ih => simp [List.all_cons, ih]
  | swap x y l => simp only [List.all_cons]; rw [← Bool.and_assoc,
      Bool.and_comm (f y) (f x), Bool.and_assoc]
  | trans h1 h2 ih1 ih2 => rw [ih1, ih2]

theorem probeOutcome_eq_true_iff (net : NetBehavior) (proxy : String) (t : String × Nat) :
    probeOutcome net proxy t = true ↔
      ∃ code, net.get proxy t.1 = some code ∧ code = t.2 := by
  unfold probeOutcome
  cases h : net.get proxy t.1 <;> simp

/-- C1: for a proxy address that parses, isProxyAvailable returns true iff
every configured probe target yields a completed response whose status code
equals that target expectation; hence a single failing target forces false. -/
theorem prober_all_targets (net : NetBehavior) (proxy : String)
    (hp : net.parseOk proxy = true) :
    isProxyAvailable net proxy = true ↔
      ∀ t ∈ testURLs, ∃ code, net.get proxy t.1 = some code ∧ code = t.2 := by
  unfold isProxyAvailable
  rw [hp]
  simp only [Bool.true_eq_false, if_false, List.all_eq_true, proberOutcomes,
    List.mem_map]
  constructor
  · intro h t ht
    exact (probeOutcome_eq_true_iff net proxy t).mp (h (probeOutcome net proxy t) ⟨t, ht, rfl⟩)
  · rintro h b ⟨t, ht, rfl⟩
    exact (probeOutcome_eq_true_iff net proxy t).mpr (h t ht)

/-- C5: a proxy address on which url.Parse fails makes isProxyAvailable
return false immediately, and the call issues no GET request to any probe
target. -/
theorem prober_malformed_address (net : NetBehavior) (proxy : String)
    (hp : net.parseOk proxy = false) :
    isProxyAvailable net proxy = false ∧ proberRequests net proxy = [] := by
  unfold isProxyAvailable proberRequests
  exact ⟨if_pos hp, if_pos hp⟩

/-- C6: for a proxy address that parses, the results channel holds one
outcome for every configured target, and the verdict equals the conjunction
of the whole collection no matter in which order the outcomes arrived: the
drain loop runs only after wg.Wait, so the verdict is a function of the
complete outcome list, never of a proper prefix (no short-circuit on the
first failure). -/
theorem prober_waits_for_all (net : NetBehavior) (proxy : String)
    (hp : net.parseOk proxy = true) :
    (proberOutcomes net proxy).length = testURLs.length ∧
    ∀ l : List Bool, List.Perm l (proberOutcomes net proxy) →
      isProxyAvailable net proxy = l.all (fun b => b) := by
  constructor
  · exact List.length_map _ _
  · intro l hl
    unfold isProxyAvailable
    rw [hp]
    simp only [Bool.true_eq_false, if_false]
    exact (perm_all_eq hl (fun b => b)).symm

/-- C7: the configured probe-target set is exactly two targets, the
no-content connectivity check with expected status 204 first and the
raw-file content fetch with expected status 200 second. -/
theorem prober_two_targets :
    testURLs.length = 2 ∧
    testURLs.map Prod.fst =
      ["https://www.google.com/generate_204",
       "https://raw.githubusercontent.com/github/gitignore/main/Go.gitignore"] ∧
    testURLs.map Prod.snd = [204, 200] :=
  ⟨rfl, rfl, rfl⟩

/-- C8: the verdict of isProxyAvailable depends only on the parse outcome of
the address and on the transport outcome and status code of each configured
probe target through that address; two runs under network behaviors that
agree on those (in particular two runs under one fixed behavior) produce the
same verdict, and probing has no effect on the model state at all. -/
theorem prober_idempotent (net₁ net₂ : NetBehavior) (proxy : String)
    (hp : net₁.parseOk proxy = net₂.parseOk proxy)
    (hg : ∀ t ∈ testURLs, net₁.get proxy t.1 = net₂.get proxy t.1) :
    isProxyAvailable net₁ proxy = isProxyAvailable net₂ proxy := by
  unfold isProxyAvailable proberOutcomes
  rw [hp]
  have hmap : testURLs.map (probeOutcome net₁ proxy) =
      testURLs.map (probeOutcome net₂ proxy) := by
    apply List.map_congr_left
    intro t ht
    unfold probeOutcome
    rw [hg t ht]
  rw [hmap]

theorem selector_step2 (net : NetBehavior) (sched : List String)
    (configProxy : String) (candidates : List String)
    (hpref : configProxy = "" ∨ isProxyAvailable net configProxy = false) :
    findAvailableProxy net sched configProxy candidates =
      (match sched.find? (fun p => isProxyAvailable net p) with
       | some p => p
       | none => "") := by
  unfold findAvailableProxy
  rw [if_neg]
  rintro ⟨hne, hav⟩
  cases hpref with
  | inl h => exact hne h
  | inr h => rw [h] at hav; cases hav

/-- C2: when the preferred address is non-empty and the prober reports it
available, findAvailableProxy returns the preferred address for every race
schedule, and the only address probed is the preferred one: the candidate
loop never runs, so no probe request is issued for any pool candidate. -/
theorem selector_preferred_first (net : NetBehavior) (sched : List String)
    (configProxy : String) (candidates : List String)
    (hne : configProxy ≠ "")
    (hav : isProxyAvailable net configProxy = true) :
    findAvailableProxy net sched configProxy candidates = configProxy ∧
    selectorProbed net configProxy candidates = [configProxy] := by
  constructor
  · unfold findAvailableProxy
    exact if_pos ⟨hne, hav⟩
  · unfold selectorProbed
    rw [if_pos hne, if_pos hav]

/-- C3: when the preferred address does not win (empty or unavailable) and
some candidate is available, findAvailableProxy returns a member of the
available subset of the candidate list, under every race schedule; and when
exactly one candidate is available it returns that candidate. -/
theorem selector_returns_available_candidate (net : NetBehavior)
    (sched : List String) (configProxy : String) (candidates : List String)
    (hperm : List.Perm sched candidates)
    (hpref : configProxy = "" ∨ isProxyAvailable net configProxy = false) :
    ((∃ c ∈ candidates, isProxyAvailable net c = true) →
      findAvailableProxy net sched configProxy candidates ∈ candidates ∧
      isProxyAvailable net (findAvailableProxy net sched configProxy candidates) = true) ∧
    (∀ c ∈ candidates, isProxyAvailable net c = true →
      (∀ d ∈ candidates, isProxyAvailable net d = true → d = c) →
      findAvailableProxy net sched configProxy candidates = c) := by
  rw [selector_step2 net sched configProxy candidates hpref]
  cases hf : sched.find? (fun p => isProxyAvailable net p) with
  | some p =>
    have hmem : p ∈ candidates := hperm.mem_iff.mp (List.mem_of_find?_eq_some hf)
    have hav : isProxyAvailable net p = true := List.find?_some hf
    exact ⟨fun _ => ⟨hmem, hav⟩, fun c _ _ huniq => huniq p hmem hav⟩
  | none =>
    have hall : ∀ x ∈ sched, ¬ isProxyAvailable net x = true :=
      List.find?_eq_none.mp hf
    constructor
    · rintro ⟨c, hc, hcav⟩
      exact absurd hcav (hall c (hperm.mem_iff.mpr hc))
    · intro c hc hcav _
      exact absurd hcav (hall c (hperm.mem_iff.mpr hc))

/-- C4: when the preferred address does not win (empty or unavailable) and
every candidate probe fails (in particular when the candidate list is
empty), findAvailableProxy returns the empty string, the sentinel for no
proxy found, rather than an error. -/
theorem selector_exhaustion (net : NetBehavior) (sched : List String)
    (configProxy : String) (candidates : List String)
    (hperm : List.Perm sched candidates)
    (hpref : configProxy = "" ∨ isProxyAvailable net configProxy = false)
    (hfail : ∀ c ∈ candidates, isProxyAvailable net c = false) :
    findAvailableProxy net sched configProxy candidates = "" := by
  rw [selector_step2 net sched configProxy candidates hpref]
  have hnone : sched.find? (fun p => isProxyAvailable net p) = none := by
    apply List.find?_eq_none.mpr
    intro x hx h
    rw [hfail x (hperm.mem_iff.mp hx)] at h
    cases h
  rw [hnone]

/-- C9: for every race schedule, the value returned by findAvailableProxy is
the empty string, the preferred address, or an element of the candidate
list; and a non-empty return value always satisfies the prober. -/
theorem selector_result_invariant (net : NetBehavior) (sched : List String)
    (configProxy : String) (candidates : List String)
    (hperm : List.Perm sched candidates) :
    (findAvailableProxy net sched configProxy candidates = "" ∨
     findAvailableProxy net sched configProxy candidates = configProxy ∨
     findAvailableProxy net sched configProxy candidates ∈ candidates) ∧
    (findAvailableProxy net sched configProxy candidates ≠ "" →
     isProxyAvailable net (findAvailableProxy net sched configProxy candidates) = true) := by
  unfold findAvailableProxy
  by_cases hc : configProxy ≠ "" ∧ isProxyAvailable net configProxy = true
  · rw [if_pos hc]
    exact ⟨Or.inr (Or.inl rfl), fun _ => hc.2⟩
  · rw [if_neg hc]
    cases hf : sched.find? (fun p => isProxyAvailable net p) with
    | some p =>
      exact ⟨Or.inr (Or.inr (hperm.mem_iff.mp (List.mem_of_find?_eq_some hf))),
        fun _ => List.find?_some hf⟩
    | none =>
      exact ⟨Or.inl rfl, fun h => absurd rfl h⟩

/-!
Embedding of the frontend archive extraction path check
(src/main.go lines 207 to 234).  Go filepath.Clean and filepath.Join are
modelled lexically with the slash separator: Clean resolves empty, dot and
dotdot path elements; Join concatenates its non-empty arguments with a
separator and cleans the result; strings.HasPrefix is a plain string
comparison.  The filesystem actions of one loop iteration are modelled as a
list of effects, with none standing for log.Fatalf aborting the process
before any effect happens.
-/

def splitSlash : List Char → List Char → List String
  | [], acc => [String.mk acc.reverse]
  | c :: rest, acc =>
    if c = '/' then String.mk acc.reverse :: splitSlash rest []
    else splitSlash rest (c :: acc)

/-- One element step of Go filepath.Clean: drop empty and dot elements, let
dotdot erase the preceding element, keep unresolvable leading dotdots of a
relative path, and drop dotdots at the root of a rooted path. -/
def cleanStep (rooted : Bool) (acc : List String) (c : String) : List String :=
  if c = "" ∨ c = "." then acc
  else if c = ".." then
    match acc with
    | [] => if rooted then [] else [".."]
    | a :: rest => if a = ".." then c :: a :: rest else rest
  else c :: acc

def joinSlash : List String → String
  | [] => ""
  | [s] => s
  | s :: rest => s ++ "/" ++ joinSlash rest

/-- Go filepath.Clean, slash-separator form. -/
def cleanPath (p : String) : String :=
  if p = "" then "."
  else
    let rooted : Bool :=
      match p.toList with
      | c :: _ => c = '/'
      | [] => false
    let comps := splitSlash p.toList []
    let acc := comps.foldl (cleanStep rooted) []
    let body := joinSlash acc.reverse
    if rooted then String.mk ('/' :: body.toList)
    else if body = "" then "." else body

/-- Go filepath.Join on two elements: empty elements are skipped and the
concatenation is cleaned. -/
def joinPath (a b : String) : String :=
  if a = "" then (if b = "" then "" else cleanPath b)
  else if b = "" then cleanPath a
  else cleanPath (a ++ "/" ++ b)

/-- Go strings.HasPrefix. -/
def strStartsWith (s t : String) : Bool :=
  List.isPrefixOf t.toList s.toList

/-- Go filepath.Dir: everything up to the last separator, cleaned. -/
def dirPath (p : String) : String :=
  cleanPath (String.mk ((p.toList.reverse.dropWhile (fun c => c != '/')).reverse))

/-- A filesystem action of one extraction-loop iteration of updateFrontend:
os.MkdirAll on a path, or creating and writing a regular file at a path. -/
inductive FsEffect where
  | mkdirAll : String → FsEffect
  | createFile : String → FsEffect
deriving DecidableEq

/-- The temporary extraction directory of updateFrontend
(src/main.go line 198). -/
def tmpDirName : String := "dist_temp"

/-- One iteration of the extraction loop of updateFrontend (src/main.go
lines 207 to 234) for a zip entry with the given name and directory flag:
the entry path is joined under the temporary directory; unless the joined
path starts with the cleaned temporary directory followed by a separator,
log.Fatalf aborts (none) before any filesystem action; a directory entry
only creates its directory; a file entry creates its parent directory and
then the file itself. -/
def extractEntry (name : String) (isDir : Bool) : Option (List FsEffect) :=
  if strStartsWith (joinPath tmpDirName name) (cleanPath tmpDirName ++ "/") = false then
    none
  else if isDir then
    some [FsEffect.mkdirAll (joinPath tmpDirName name)]
  else
    some [FsEffect.mkdirAll (dirPath (joinPath tmpDirName name)),
          FsEffect.createFile (joinPath tmpDirName name)]

/-- C10: every zip entry path is joined under the temporary directory and
checked against its cleaned-plus-separator prefix; for every entry whose
joined (hence cleaned, dotdot-resolved) path escapes the temporary
directory, the iteration aborts with no filesystem effect: no directory and
no file is created or written for that entry. -/
theorem extract_rejects_traversal (name : String) (isDir : Bool)
    (h : strStartsWith (joinPath tmpDirName name) (cleanPath tmpDirName ++ "/") = false) :
    extractEntry name isDir = none := by
  unfold extractEntry
  exact if_pos h

/-!
Concrete witnesses.  sampleNet is a network behavior under which the address
goodProxy answers both probe targets with their expected status codes, every
other address fails at the transport level, and the address ::bad:: fails
URL parsing; netB agrees with sampleNet on goodProxy but answers status 500
for every other address.
-/

def goodProxy : String := "http://127.0.0.1:7890"

def candA : String := "http://127.0.0.1:1080"

def sampleNet : NetBehavior where
  parseOk := fun p => p != "::bad::"
  get := fun proxy target =>
    if proxy == goodProxy then
      (if target == "https://www.google.com/generate_204" then some 204 else some 200)
    else none

def netB : NetBehavior where
  parseOk := fun p => p != "::bad::"
  get := fun proxy target =>
    if proxy == goodProxy then
      (if target == "https://www.google.com/generate_204" then some 204 else some 200)
    else some 500

theorem prober_all_targets_witness :
    sampleNet.parseOk goodProxy = true ∧ isProxyAvailable sampleNet goodProxy = true := by
  refine ⟨by decide, ?_⟩
  refine (prober_all_targets sampleNet goodProxy (by decide)).mpr ?_
  intro t ht
  simp only [testURLs, List.mem_cons, List.not_mem_nil, or_false] at ht
  rcases ht with rfl | rfl
  · exact ⟨204, by decide, rfl⟩
  · exact ⟨200, by decide, rfl⟩

theorem prober_malformed_address_witness :
    isProxyAvailable sampleNet "::bad::" = false ∧
    proberRequests sampleNet "::bad::" = [] :=
  prober_malformed_address sampleNet "::bad::" (by decide)

theorem prober_waits_for_all_witness :
    (proberOutcomes sampleNet goodProxy).length = testURLs.length ∧
    isProxyAvailable sampleNet goodProxy = [true, true].all (fun b => b) := by
  have h := prober_waits_for_all sampleNet goodProxy (by decide)
  exact ⟨h.1, h.2 [true, true] (by decide)⟩

theorem prober_idempotent_witness :
    isProxyAvailable sampleNet goodProxy = isProxyAvailable netB goodProxy :=
  prober_idempotent sampleNet netB goodProxy (by decide) (by decide)

theorem selector_preferred_first_witness :
    findAvailableProxy sampleNet [candA] goodProxy [candA] = goodProxy ∧
    selectorProbed sampleNet goodProxy [candA] = [goodProxy] :=
  selector_preferred_first sampleNet [candA] goodProxy [candA] (by decide) (by decide)

theorem selector_returns_available_candidate_witness :
    findAvailableProxy sampleNet [goodProxy, candA] "" [candA, goodProxy] ∈
      [candA, goodProxy] ∧
    isProxyAvailable sampleNet
      (findAvailableProxy sampleNet [goodProxy, candA] "" [candA, goodProxy]) = true :=
  (selector_returns_available_candidate sampleNet [goodProxy, candA] ""
      [candA, goodProxy] (List.Perm.swap candA goodProxy []) (Or.inl rfl)).1
    ⟨goodProxy, by decide, by decide⟩

theorem selector_exhaustion_witness :
    findAvailableProxy sampleNet [] "::bad::" [] = "" :=
  selector_exhaustion sampleNet [] "::bad::" [] (List.Perm.refl [])
    (Or.inr (by decide)) (by decide)

theorem selector_result_invariant_witness :
    (findAvailableProxy sampleNet [candA] "" [candA] = "" ∨
     findAvailableProxy sampleNet [candA] "" [candA] = "" ∨
     findAvailableProxy sampleNet [candA] "" [candA] ∈ [candA]) ∧
    (findAvailableProxy sampleNet [candA] "" [candA] ≠ "" →
     isProxyAvailable sampleNet (findAvailableProxy sampleNet [candA] "" [candA]) = true) :=
  selector_result_invariant sampleNet [candA] "" [candA] (List.Perm.refl [candA])

theorem extract_rejects_traversal_witness :
    extractEntry "../../etc/passwd" false = none :=
  extract_rejects_traversal "../../etc/passwd" false (by decide)
